import Mathlib

/-!
Shallow embedding of the diagnostic-pipeline core of this repository
(`app/agents/*.py`): the confidence scoring and primary/secondary
selection of the Resolution Stage, the deterministic quality analysis and
the retry loop of the Challenge Stage, the single-attempt generation of
the Hypothesis Stage, the two stage validators, the shared
`generate_response` wrapper, and the orchestrator's workflow, consensus
assessment, session history and report export.

Python dictionaries are embedded as structures whose fields are `Option`s
(`none` models an absent key); `dict.get(k, default)` becomes
`Option.getD`.  The float expression `0.2 * evidence_count + bonus` of the
source is embedded as an exact rational: for every reachable score
(`n * (2/10) + b` with `b` one of `0`, `1/10`, `3/10`, `6/10`) the CPython
double comparison against the literals `0.7` and `0.4` classifies exactly
as the rational comparison does (checked by case analysis over `n ≤ 3`;
every larger `n` clears both thresholds in both readings), so the rational
embedding is observationally the source's classification.  Wall-clock
timestamps, durations and logging are outside the embedding.
-/

namespace MedAgents

/-- Python `str.lower()` as applied to probability strings.  Lean's
`Char.toLower` lowers ASCII letters only; this agrees with CPython on the
marker characters 高, 中, 低, which no lowering produces or removes. -/
def pyLower (s : String) : String := ⟨s.data.map Char.toLower⟩

/-- Python membership test `c in s` for a one-character needle. -/
def pyHasChar (s : String) (c : Char) : Bool := s.data.contains c

/-- Python substring test `needle in hay` for multi-character needles,
as contiguous-subsequence search over code points. -/
def pySubstrAux (needle : List Char) : List Char → Bool
  | [] => needle.isEmpty
  | c :: rest => needle.isPrefixOf (c :: rest) || pySubstrAux needle rest

/-- Python substring test `needle in hay` on strings. -/
def pySubstr (needle hay : String) : Bool := pySubstrAux needle.data hay.data

/-- One entry of a candidate/revised diagnosis list as the JSON object the
stages read with `dict.get`; `none` models an absent key
(`app/agents/dr_hypothesis_agent.py`, `app/agents/dr_challenger_agent.py`). -/
structure DiagnosisDict where
  diagnosis_name : Option String
  supporting_evidence : Option (List String)
  probability : Option String
  additional_tests_needed : Option (List String)
  deriving DecidableEq

/-- Name of a diagnosis as the source reads it: `d.get('diagnosis_name', '')`. -/
def diagnosisNameOf (d : DiagnosisDict) : String := d.diagnosis_name.getD ""

/-- Evidence-strength score of one revised diagnosis, embedded from
`DrClinicalReasoningAgent.analyze_diagnosis_confidence` (lines 71-83):
`len(evidence) * 0.2`, plus 0.6 / 0.3 / 0.1 when the lowered probability
string contains 高 / 中 / 低 (tested in that elif order), else plus 0. -/
def evidenceScore (d : DiagnosisDict) : ℚ :=
  let probability := pyLower (d.probability.getD "")
  let evidence := d.supporting_evidence.getD []
  let base : ℚ := (evidence.length : ℚ) * (2 / 10)
  if pyHasChar probability '高' then base + 6 / 10
  else if pyHasChar probability '中' then base + 3 / 10
  else if pyHasChar probability '低' then base + 1 / 10
  else base

/-- Result dictionary of `analyze_diagnosis_confidence`.  The Python
`evidence_strength_scores` dict is embedded as the association list of
(name, score) pairs in insertion order. -/
structure ConfidenceAnalysis where
  high_confidence_diagnoses : List DiagnosisDict
  medium_confidence_diagnoses : List DiagnosisDict
  low_confidence_diagnoses : List DiagnosisDict
  evidence_strength_scores : List (String × ℚ)
  overall_confidence : String
  deriving DecidableEq

/-- Body of one iteration of the `for diagnosis in revised_diagnoses` loop
of `analyze_diagnosis_confidence` (lines 71-93). -/
def confidenceStep (acc : ConfidenceAnalysis) (d : DiagnosisDict) : ConfidenceAnalysis :=
  let score := evidenceScore d
  let acc' := { acc with evidence_strength_scores :=
      acc.evidence_strength_scores ++ [(diagnosisNameOf d, score)] }
  if score ≥ 7 / 10 then
    { acc' with high_confidence_diagnoses := acc'.high_confidence_diagnoses ++ [d] }
  else if score ≥ 4 / 10 then
    { acc' with medium_confidence_diagnoses := acc'.medium_confidence_diagnoses ++ [d] }
  else
    { acc' with low_confidence_diagnoses := acc'.low_confidence_diagnoses ++ [d] }

/-- The classification loop of `analyze_diagnosis_confidence`. -/
def confidenceLoop (acc : ConfidenceAnalysis) : List DiagnosisDict → ConfidenceAnalysis
  | [] => acc
  | d :: rest => confidenceLoop (confidenceStep acc d) rest

/-- Embeds `DrClinicalReasoningAgent.analyze_diagnosis_confidence`
(lines 53-103): classify every revised diagnosis into the three confidence
buckets, then derive the overall confidence label. -/
def analyze_diagnosis_confidence (revised_diagnoses : List DiagnosisDict) : ConfidenceAnalysis :=
  let looped := confidenceLoop ⟨[], [], [], [], "medium"⟩ revised_diagnoses
  { looped with overall_confidence :=
      if looped.high_confidence_diagnoses ≠ [] then "high"
      else if looped.medium_confidence_diagnoses ≠ [] then "medium"
      else "low" }

/-- Embeds the primary/secondary selection of
`DrClinicalReasoningAgent.process` (lines 353-362) as a function of the
confidence analysis it reads: primary from the head of the high bucket if
non-empty, else the head of the medium bucket; secondary names from
`medium[:2]` resp. `medium[1:3]`. -/
def selectPrimarySecondary (ca : ConfidenceAnalysis) : String × List String :=
  match ca.high_confidence_diagnoses with
  | dh :: _ =>
      (diagnosisNameOf dh, (ca.medium_confidence_diagnoses.take 2).map diagnosisNameOf)
  | [] =>
      match ca.medium_confidence_diagnoses with
      | dm :: _ =>
          (diagnosisNameOf dm,
           ((ca.medium_confidence_diagnoses.drop 1).take 2).map diagnosisNameOf)
      | [] => ("", [])

/-- Spec-side scoring formula of claim C1, written from the claim's words
(to be compared with the source's `evidenceScore`): `0.2 × evidence_count
+ bonus`, the bonus being 0.6 for the high bucket, 0.3 for medium, 0.1
for low and 0 otherwise. -/
def specScore (d : DiagnosisDict) : ℚ :=
  ((d.supporting_evidence.getD []).length : ℚ) * (2 / 10) +
    (if d.probability = some "高" then 6 / 10
     else if d.probability = some "中" then 3 / 10
     else if d.probability = some "低" then 1 / 10 else 0)

def exHighNoEvidence : DiagnosisDict := ⟨some "急性下壁心肌梗死", some [], some "高", none⟩

def exHighThreeEvidence : DiagnosisDict :=
  ⟨some "不稳定性心绞痛", some ["胸痛", "ST段抬高", "放射痛"], some "高", none⟩

/-- Quality concern emitted by `DrChallengerAgent.analyze_diagnosis_quality`
when the high-probability count is zero (line 98). -/
def missingHighMsg : String := "缺少高可能性诊断"

/-- Quality concern emitted when the high-probability count exceeds two
(line 101). -/
def overdiagnosisMsg : String := "高可能性诊断过多，可能存在过度诊断"

/-- Per-diagnosis concern emitted for a diagnosis without supporting
evidence (lines 87-89). -/
def lackEvidenceMsg (d : DiagnosisDict) : String :=
  "诊断 '" ++ d.diagnosis_name.getD "未知" ++ "' 缺乏支持证据"

/-- Result dictionary of `DrChallengerAgent.analyze_diagnosis_quality`. -/
structure QualityAnalysis where
  total_diagnoses : Nat
  high_probability_count : Nat
  medium_probability_count : Nat
  low_probability_count : Nat
  diagnoses_with_evidence : Nat
  diagnoses_with_tests : Nat
  potential_issues : List String
  deriving DecidableEq

/-- Source test `'高' in diagnosis.get('probability', '').lower()`. -/
def probMarkHigh (d : DiagnosisDict) : Bool := pyHasChar (pyLower (d.probability.getD "")) '高'

/-- Source test `'中' in diagnosis.get('probability', '').lower()`. -/
def probMarkMedium (d : DiagnosisDict) : Bool := pyHasChar (pyLower (d.probability.getD "")) '中'

/-- Source test `'低' in diagnosis.get('probability', '').lower()`. -/
def probMarkLow (d : DiagnosisDict) : Bool := pyHasChar (pyLower (d.probability.getD "")) '低'

/-- Body of one iteration of the `for diagnosis in candidate_diagnoses`
loop of `analyze_diagnosis_quality` (lines 72-94): the probability elif
chain, the evidence check (a missing or empty evidence list emits a
per-diagnosis concern, a non-empty one is counted), and the tests check. -/
def qualityStep (acc : QualityAnalysis) (d : DiagnosisDict) : QualityAnalysis :=
  let acc1 :=
    if probMarkHigh d then
      { acc with high_probability_count := acc.high_probability_count + 1 }
    else if probMarkMedium d then
      { acc with medium_probability_count := acc.medium_probability_count + 1 }
    else if probMarkLow d then
      { acc with low_probability_count := acc.low_probability_count + 1 }
    else acc
  let acc2 :=
    if (d.supporting_evidence.getD []).isEmpty then
      { acc1 with potential_issues := acc1.potential_issues ++ [lackEvidenceMsg d] }
    else
      { acc1 with diagnoses_with_evidence := acc1.diagnoses_with_evidence + 1 }
  if (d.additional_tests_needed.getD []).isEmpty then acc2
  else { acc2 with diagnoses_with_tests := acc2.diagnoses_with_tests + 1 }

/-- The tally loop of `analyze_diagnosis_quality`. -/
def qualityLoop (acc : QualityAnalysis) : List DiagnosisDict → QualityAnalysis
  | [] => acc
  | d :: rest => qualityLoop (qualityStep acc d) rest

/-- Post-loop checks of `analyze_diagnosis_quality` (lines 96-101): append
the missing-high-probability concern when the high count is zero, then the
overdiagnosis concern when the high count exceeds two. -/
def qualityOverall (looped : QualityAnalysis) : QualityAnalysis :=
  let withMissing :=
    if looped.high_probability_count = 0 then
      { looped with potential_issues := looped.potential_issues ++ [missingHighMsg] }
    else looped
  if withMissing.high_probability_count > 2 then
    { withMissing with potential_issues := withMissing.potential_issues ++ [overdiagnosisMsg] }
  else withMissing

/-- Embeds `DrChallengerAgent.analyze_diagnosis_quality` (lines 52-103):
run the tally loop from the zeroed dictionary, then the post-loop checks. -/
def analyze_diagnosis_quality (candidate_diagnoses : List DiagnosisDict) : QualityAnalysis :=
  qualityOverall
    (qualityLoop ⟨candidate_diagnoses.length, 0, 0, 0, 0, 0, []⟩ candidate_diagnoses)

/-- A JSON list entry as seen by the validators: either an object (the
`isinstance(diagnosis, dict)` test of the source succeeds) or any other
JSON value (the entry is skipped). -/
inductive DiagEntry where
  | dict (d : DiagnosisDict)
  | nonDict
  deriving DecidableEq

/-- Result dictionary the Challenge Stage's loop body obtains from
`parse_json_response`; `none` models an absent key.  A parse failure is
the dictionary with the `error` key set (`parse_json_response`, line 237),
which is exactly what the loop's `"error" in challenge_result` test
checks. -/
structure ChallengeDict where
  diagnosis_review : Option (List DiagEntry)
  additional_diagnoses : Option (List DiagEntry)
  revised_diagnosis_list : Option (List DiagEntry)
  quality_concerns : Option (List String)
  recommendations : Option (List String)
  raw_response : Option String
  error : Option String
  fallback_mode : Option Bool
  deriving DecidableEq

/-- Embeds `DrChallengerAgent._create_fallback_challenge_result`
(lines 204-228). -/
def create_fallback_challenge_result (raw_response : String) (error_msg : String) :
    ChallengeDict :=
  { diagnosis_review := some []
    additional_diagnoses := some []
    revised_diagnosis_list := some []
    quality_concerns := some [error_msg, "建议人工审核诊断结果"]
    recommendations := some
      ["建议检查网络连接和API配置", "考虑增加超时时间或重试次数", "如问题持续，请联系技术支持"]
    raw_response := some (if raw_response ≠ "" then raw_response.take 500 else "")
    error := some error_msg
    fallback_mode := some true }

/-- Outcome of one iteration's try body up to the parse, as a function of
the attempt index: the body completed with a raw response string and its
parsed dictionary, or an exception escaped with the given message. -/
inductive GenAttempt (α : Type) where
  | ok (response : String) (parsed : α)
  | raised (msg : String)
  deriving DecidableEq

/-- Timeout test of the Challenge Stage's except branch (line 187):
`"timeout" in error_msg.lower() or "timed out" in error_msg.lower()`. -/
def isTimeoutMsg (msg : String) : Bool :=
  pySubstr "timeout" (pyLower msg) || pySubstr "timed out" (pyLower msg)

/-- Trace of one execution of the Challenge Stage's retry loop: the
returned dictionary, the number of generator invocations, the backoff
sleep durations in seconds in order, and the number of visits to the
except branch. -/
structure ChallengeRun where
  result : ChallengeDict
  calls : Nat
  sleeps : List Nat
  excBranches : Nat
  deriving DecidableEq

/-- The retry loop of `DrChallengerAgent.challenge_diagnosis`
(lines 146-202), parametrised by the attempt oracle `att` (`att i` is the
outcome of attempt `i`, 0-based).  `fuel` maintains
`retry_count + fuel = max_retries`; the `fuel = 0` case is the
`while` loop falling through (line 202). -/
def challengeGo (att : Nat → GenAttempt ChallengeDict) (maxRetries : Nat) :
    Nat → Nat → Nat → List Nat → Nat → ChallengeRun
  | _, 0, calls, sleeps, exc =>
      ⟨create_fallback_challenge_result "" "所有重试尝试都失败了", calls, sleeps, exc⟩
  | rc, fuel + 1, calls, sleeps, exc =>
      match att rc with
      | .ok response parsed =>
          if parsed.error.isSome then
            if rc = maxRetries - 1 then
              ⟨create_fallback_challenge_result response "JSON解析失败", calls + 1, sleeps, exc⟩
            else challengeGo att maxRetries (rc + 1) fuel (calls + 1) sleeps exc
          else ⟨parsed, calls + 1, sleeps, exc⟩
      | .raised msg =>
          if isTimeoutMsg msg = true ∧ rc < maxRetries - 1 then
            challengeGo att maxRetries (rc + 1) fuel (calls + 1) (sleeps ++ [2 ^ rc]) (exc + 1)
          else if rc = maxRetries - 1 then
            ⟨create_fallback_challenge_result "" ("处理错误: " ++ msg), calls + 1, sleeps,
              exc + 1⟩
          else challengeGo att maxRetries (rc + 1) fuel (calls + 1) sleeps (exc + 1)

/-- Embeds `DrChallengerAgent.challenge_diagnosis` (lines 134-202):
`max_retries = 3`, `retry_count = 0`. -/
def challenge_diagnosis (att : Nat → GenAttempt ChallengeDict) : ChallengeRun :=
  challengeGo att 3 0 3 0 [] 0

/-- Result dictionary of the Hypothesis Stage's generation
(`parse_json_response` output or one of the two fallback dictionaries);
`fallback_mode` is carried so that its absence (`none`) on the
hypothesis-stage fallbacks is expressible. -/
structure HypoDict where
  candidate_diagnoses : Option (List DiagEntry)
  clinical_reasoning : Option String
  key_findings : Option (List String)
  raw_response : Option String
  error : Option String
  fallback_mode : Option Bool
  deriving DecidableEq

/-- Trace of one execution of the Hypothesis Stage's generation. -/
structure HypoRun where
  result : HypoDict
  calls : Nat
  sleeps : List Nat
  deriving DecidableEq

/-- Embeds `DrHypothesisAgent.generate_diagnosis_hypotheses`
(lines 93-141), parametrised by the same attempt oracle as the Challenge
Stage: the source makes a single call with no retry loop; a parse failure
returns the fallback dictionary carrying the raw response as the clinical
reasoning, an exception returns the fallback carrying the message; no
sleep is ever performed. -/
def generate_diagnosis_hypotheses (att : Nat → GenAttempt HypoDict) : HypoRun :=
  match att 0 with
  | .ok response parsed =>
      if parsed.error.isSome then
        ⟨{ candidate_diagnoses := some []
           clinical_reasoning := some response
           key_findings := some []
           raw_response := none
           error := some "JSON解析失败，返回原始响应"
           fallback_mode := none }, 1, []⟩
      else ⟨parsed, 1, []⟩
  | .raised msg =>
      ⟨{ candidate_diagnoses := some []
         clinical_reasoning := some ("诊断假设生成过程中出现错误: " ++ msg)
         key_findings := some []
         raw_response := none
         error := some msg
         fallback_mode := none }, 1, []⟩

/-- Failure test on a challenge attempt: the parsed dictionary carries an
`error` key, or an exception escaped. -/
def challengeAttemptFails : GenAttempt ChallengeDict → Bool
  | .ok _ parsed => parsed.error.isSome
  | .raised _ => true

/-- Failure test on a hypothesis attempt. -/
def hypoAttemptFails : GenAttempt HypoDict → Bool
  | .ok _ parsed => parsed.error.isSome
  | .raised _ => true

/-- One candidate/revised diagnosis after validation: all four canonical
fields present (hypothesis lines 170-175, challenger lines 258-263). -/
structure ValidatedDiagnosis where
  diagnosis_name : String
  supporting_evidence : List String
  probability : String
  additional_tests_needed : List String
  deriving DecidableEq

/-- Normalization of one list entry: a dict entry yields the four
canonical fields with their defaults; a non-dict entry is dropped
(the `isinstance` guard). -/
def validateDiagnosisEntry (e : DiagEntry) : Option ValidatedDiagnosis :=
  match e with
  | .dict d => some
      { diagnosis_name := d.diagnosis_name.getD "未知诊断"
        supporting_evidence := d.supporting_evidence.getD []
        probability := d.probability.getD "中"
        additional_tests_needed := d.additional_tests_needed.getD [] }
  | .nonDict => none

/-- Output of `DrHypothesisAgent.validate_diagnosis_hypotheses`: every
required key present (non-`Option` fields), extra keys of the input
preserved by the `copy()`, and the `validation_info` total.  The
validation timestamp (a logging artefact) is outside the embedding. -/
structure ValidatedHypo where
  candidate_diagnoses : List ValidatedDiagnosis
  clinical_reasoning : String
  key_findings : List String
  raw_response : Option String
  error : Option String
  fallback_mode : Option Bool
  total_diagnoses : Nat
  deriving DecidableEq

/-- Embeds `DrHypothesisAgent.validate_diagnosis_hypotheses`
(lines 143-186). -/
def validate_diagnosis_hypotheses (d : HypoDict) : ValidatedHypo :=
  let vds := (d.candidate_diagnoses.getD []).filterMap validateDiagnosisEntry
  { candidate_diagnoses := vds
    clinical_reasoning := d.clinical_reasoning.getD "未提供临床推理"
    key_findings := d.key_findings.getD []
    raw_response := d.raw_response
    error := d.error
    fallback_mode := d.fallback_mode
    total_diagnoses := vds.length }

/-- Output of `DrChallengerAgent.validate_challenge_result`: the five
required keys present, extra keys preserved, and the five
`validation_stats` counts as flattened fields. -/
structure ValidatedChallenge where
  diagnosis_review : List DiagEntry
  additional_diagnoses : List DiagEntry
  revised_diagnosis_list : List ValidatedDiagnosis
  quality_concerns : List String
  recommendations : List String
  raw_response : Option String
  error : Option String
  fallback_mode : Option Bool
  original_diagnoses_reviewed : Nat
  additional_diagnoses_suggested : Nat
  final_revised_diagnoses : Nat
  quality_concerns_identified : Nat
  recommendations_provided : Nat
  deriving DecidableEq

/-- Embeds `DrChallengerAgent.validate_challenge_result` (lines 230-277). -/
def validate_challenge_result (c : ChallengeDict) : ValidatedChallenge :=
  let dr := c.diagnosis_review.getD []
  let ad := c.additional_diagnoses.getD []
  let vds := (c.revised_diagnosis_list.getD []).filterMap validateDiagnosisEntry
  let qc := c.quality_concerns.getD []
  let recs := c.recommendations.getD []
  { diagnosis_review := dr
    additional_diagnoses := ad
    revised_diagnosis_list := vds
    quality_concerns := qc
    recommendations := recs
    raw_response := c.raw_response
    error := c.error
    fallback_mode := c.fallback_mode
    original_diagnoses_reviewed := dr.length
    additional_diagnoses_suggested := ad.length
    final_revised_diagnoses := vds.length
    quality_concerns_identified := qc.length
    recommendations_provided := recs.length }

/-- Outcome of the `chat_completion` call inside
`MedicalAgentBase.generate_response`: a raised exception, or a returned
dictionary with its optional `error` key and the `choices` message
contents (modelled as strings per the TextGenerator collaborator
contract; an absent `choices` key and an empty list behave identically in
the source's `if "choices" in result and len(result["choices"]) > 0`). -/
inductive ChatOutcome where
  | raised (msg : String)
  | result (error : Option String) (choices : List String)
  deriving DecidableEq

/-- The per-agent apology string of `generate_response` (lines 111, 119,
123). -/
def apologyMsg (agent_name : String) : String :=
  "抱歉，" ++ agent_name ++ "在生成响应时遇到错误。"

/-- Embeds `MedicalAgentBase.generate_response` (lines 87-123): the
try/except of the source makes the embedding a total function into
strings; every failure shape collapses to the apology string. -/
def generate_response (agent_name : String) (outcome : ChatOutcome) : String :=
  match outcome with
  | .raised _ => apologyMsg agent_name
  | .result err choices =>
      if err.isSome then apologyMsg agent_name
      else
        match choices with
        | [] => apologyMsg agent_name
        | c :: _ => c

/-- The attempt the Challenge Stage's loop body sees when its generator
call goes through `generate_response`: the call returns a string (never
raises), which the parse step (abstracted as `parse`) then interprets —
by construction never a raised attempt. -/
def attemptViaGenerateResponse (agent_name : String) (parse : String → ChallengeDict)
    (outcome : ChatOutcome) : GenAttempt ChallengeDict :=
  .ok (generate_response agent_name outcome) (parse (generate_response agent_name outcome))

/-- One step record of the orchestrator's session (wall-clock duration,
timestamp and textual summary are outside the embedding). -/
structure StepRecord where
  step_name : String
  agent_name : String
  status : String
  deriving DecidableEq

/-- The fields of `DrHypothesisAgent.process`'s output dictionary that the
orchestrator reads. -/
structure HypothesisOutput where
  agent_name : String
  processing_status : String
  error : Option String
  diagnosis_hypotheses : ValidatedHypo
  deriving DecidableEq

/-- The fields of `DrChallengerAgent.process`'s output dictionary that the
orchestrator reads. -/
structure ChallengerOutput where
  agent_name : String
  processing_status : String
  error : Option String
  challenge_result : ValidatedChallenge
  deriving DecidableEq

/-- The fields of `DrClinicalReasoningAgent.process`'s output dictionary
that the orchestrator reads (the free-text `final_diagnosis` payload is
outside the embedding; no claim mentions it). -/
structure ReasoningOutput where
  agent_name : String
  processing_status : String
  error : Option String
  confidence_analysis : ConfidenceAnalysis
  deriving DecidableEq

/-- Python `f"...{d.get('error')}"` renders an absent key as `"None"`. -/
def optErrStr : Option String → String
  | some s => s
  | none => "None"

/-- Embeds `MedicalAgentOrchestrator._assess_consensus_level`
(lines 275-298) as the pure function of the quality-concern count and the
overall confidence label it reads. -/
def assess_consensus_level (quality_concerns : Nat) (confidence : String) : String :=
  if quality_concerns = 0 ∧ confidence = "high" then "high"
  else if quality_concerns ≤ 2 ∧ (confidence = "high" ∨ confidence = "medium") then "medium"
  else "low"

/-- The fields of the aggregated success report
(`MedicalAgentOrchestrator._generate_final_report`, lines 221-273) that
the claims reference; free-text payload fields are outside the
embedding. -/
structure FinalReport where
  session_id : String
  initial_hypotheses_count : Nat
  revised_diagnoses_count : Nat
  quality_concerns_identified : Nat
  overall_confidence : String
  consensus_level : String
  process_steps : List StepRecord
  deriving DecidableEq

/-- The fields of the structured error report
(`MedicalAgentOrchestrator._generate_error_report`, lines 349-395) that
the claims reference. -/
structure ErrorReport where
  session_id : String
  status : String
  message : String
  completed_steps : Nat
  deriving DecidableEq

/-- A workflow returns either the aggregated success report or the
structured error report. -/
inductive WorkflowReport where
  | success (r : FinalReport)
  | failure (e : ErrorReport)
  deriving DecidableEq

/-- The orchestrator's session dictionary (creation/end timestamps and the
patient-record reference are outside the embedding). -/
structure Session where
  session_id : String
  status : String
  steps : List StepRecord
  error : Option String
  results : Option FinalReport
  deriving DecidableEq

/-- The orchestrator's mutable state: the current session and the
in-memory session history list. -/
structure OrchestratorState where
  current_session : Option Session
  session_history : List Session
  deriving DecidableEq

/-- Embeds `MedicalAgentOrchestrator._record_step_result` (lines 180-199)
on the live session. -/
def record_step (s : Session) (step_name agent_name status : String) : Session :=
  { s with steps := s.steps ++ [⟨step_name, agent_name, status⟩] }

/-- Embeds `MedicalAgentOrchestrator._generate_error_report`
(lines 349-395): session id and completed-step count from the current
session when one exists, else the `unknown`/0 defaults. -/
def generate_error_report (s : Option Session) (error_message : String) : ErrorReport :=
  { session_id := (s.map Session.session_id).getD "unknown"
    status := "failed"
    message := error_message
    completed_steps := (s.map (fun ss => ss.steps.length)).getD 0 }

/-- Embeds `MedicalAgentOrchestrator._generate_final_report`
(lines 221-273) restricted to the fields the claims reference. -/
def generate_final_report (sid : String) (h : HypothesisOutput) (c : ChallengerOutput)
    (r : ReasoningOutput) (steps : List StepRecord) : FinalReport :=
  { session_id := sid
    initial_hypotheses_count := h.diagnosis_hypotheses.candidate_diagnoses.length
    revised_diagnoses_count := c.challenge_result.revised_diagnosis_list.length
    quality_concerns_identified := c.challenge_result.quality_concerns.length
    overall_confidence := r.confidence_analysis.overall_confidence
    consensus_level := assess_consensus_level c.challenge_result.quality_concerns.length
      r.confidence_analysis.overall_confidence
    process_steps := steps }

/-- Embeds `MedicalAgentOrchestrator.execute_diagnosis_workflow`
(lines 83-178) for an invocation that creates its session, parametrised by
the three stage outputs (each stage's `process` catches every exception
and returns a status dictionary, so the stages are total functions into
their outputs).  The try/except of the source is embedded by the failure
branches: a non-success stage status raises, the handler marks the
session failed and returns the error report; only the success path
appends to the session history (line 163). -/
def execute_diagnosis_workflow (sid : String) (h : HypothesisOutput) (c : ChallengerOutput)
    (r : ReasoningOutput) (st : OrchestratorState) : WorkflowReport × OrchestratorState :=
  let session0 : Session := ⟨sid, "created", [], none, none⟩
  let session1 := record_step session0 "hypothesis" h.agent_name h.processing_status
  if h.processing_status ≠ "success" then
    let msg := "Dr.Hypothesis处理失败: " ++ optErrStr h.error
    let failed := { session1 with status := "failed", error := some msg }
    (.failure (generate_error_report (some failed) msg),
     { st with current_session := some failed })
  else
    let session2 := record_step session1 "challenger" c.agent_name c.processing_status
    if c.processing_status ≠ "success" then
      let msg := "Dr.Challenger处理失败: " ++ optErrStr c.error
      let failed := { session2 with status := "failed", error := some msg }
      (.failure (generate_error_report (some failed) msg),
       { st with current_session := some failed })
    else
      let session3 := record_step session2 "clinical_reasoning" r.agent_name r.processing_status
      if r.processing_status ≠ "success" then
        let msg := "Dr.Clinical-Reasoning处理失败: " ++ optErrStr r.error
        let failed := { session3 with status := "failed", error := some msg }
        (.failure (generate_error_report (some failed) msg),
         { st with current_session := some failed })
      else
        let report := generate_final_report sid h c r session3.steps
        let completed := { session3 with status := "completed", results := some report }
        (.success report,
         { current_session := some completed,
           session_history := st.session_history ++ [completed] })

/-- Embeds `MedicalAgentOrchestrator.export_diagnosis_report`
(lines 406-422).  The two renderers are passed as parameters: `json_dump`
stands for the `json.dumps` library call and `text_format` for
`_format_text_report` (pure string assembly no claim constrains); the
`ValueError` raise is embedded as `Except.error`. -/
def export_diagnosis_report (json_dump : WorkflowReport → String)
    (text_format : WorkflowReport → String) (report : WorkflowReport)
    (format_type : String) : Except String String :=
  if format_type = "json" then .ok (json_dump report)
  else if format_type = "text" then .ok (text_format report)
  else .error ("不支持的导出格式: " ++ format_type)

/-- Generator oracle whose every attempt times out, for the Hypothesis
Stage. -/
def hypAlwaysTimeout : Nat → GenAttempt HypoDict := fun _ => .raised "Request timed out"

/-- Generator oracle whose every attempt times out, for the Challenge
Stage. -/
def chalAlwaysTimeout : Nat → GenAttempt ChallengeDict :=
  fun _ => .raised "Connection timed out"

/-- The dictionary `parse_json_response` returns on a decode failure
(line 237), restricted to the embedded keys. -/
def parseFailDict : ChallengeDict :=
  ⟨none, none, none, none, none, some "", some "JSON解析失败，返回原始响应", none⟩

/-- Client outcome oracle whose every call raises a timeout. -/
def clientAlwaysTimeout : Nat → ChatOutcome := fun _ => .raised "Read timed out"

/-- Hypothesis-stage parse output with a dict entry missing every field
and a non-dict entry, every top-level key absent. -/
def hypoPartialDict : HypoDict :=
  ⟨some [DiagEntry.dict ⟨none, none, none, none⟩, DiagEntry.nonDict], none, none, none,
    none, none⟩

/-- Challenge-stage parse output with a dict entry missing every field,
every top-level key absent. -/
def chalPartialDict : ChallengeDict :=
  ⟨none, none, some [DiagEntry.dict ⟨none, none, none, none⟩], none, none, none, none, none⟩

/-- Empty-but-complete hypothesis-stage payload for concrete runs. -/
def emptyValidatedHypo : ValidatedHypo := ⟨[], "未提供临床推理", [], none, none, none, 0⟩

/-- Empty-but-complete challenge-stage payload for concrete runs. -/
def emptyValidatedChallenge : ValidatedChallenge :=
  ⟨[], [], [], [], [], none, none, none, 0, 0, 0, 0, 0⟩

/-- Empty confidence analysis for concrete runs. -/
def emptyConfidence : ConfidenceAnalysis := ⟨[], [], [], [], "medium"⟩

/-- Successful hypothesis-stage output for concrete runs. -/
def okHyp : HypothesisOutput := ⟨"Dr.Hypothesis", "success", none, emptyValidatedHypo⟩

/-- Successful challenge-stage output for concrete runs. -/
def okChal : ChallengerOutput := ⟨"Dr.Challenger", "success", none, emptyValidatedChallenge⟩

/-- Successful resolution-stage output for concrete runs. -/
def okReas : ReasoningOutput := ⟨"Dr.Clinical-Reasoning", "success", none, emptyConfidence⟩

/-- Failed hypothesis-stage output for concrete runs (the stage's
missing-patient-info error). -/
def failedHyp : HypothesisOutput :=
  ⟨"Dr.Hypothesis", "failed", some "缺少患者信息", emptyValidatedHypo⟩

/-- Candidate list with three high-probability entries. -/
def threeHighList : List DiagnosisDict :=
  [exHighNoEvidence, exHighThreeEvidence, exHighNoEvidence]

theorem confidenceLoop_spec (l : List DiagnosisDict) (acc : ConfidenceAnalysis) :
    confidenceLoop acc l =
      { high_confidence_diagnoses := acc.high_confidence_diagnoses ++
          l.filter (fun d => evidenceScore d ≥ 7 / 10)
        medium_confidence_diagnoses := acc.medium_confidence_diagnoses ++
          l.filter (fun d => ¬ evidenceScore d ≥ 7 / 10 ∧ evidenceScore d ≥ 4 / 10)
        low_confidence_diagnoses := acc.low_confidence_diagnoses ++
          l.filter (fun d => ¬ evidenceScore d ≥ 7 / 10 ∧ ¬ evidenceScore d ≥ 4 / 10)
        evidence_strength_scores := acc.evidence_strength_scores ++
          l.map (fun d => (diagnosisNameOf d, evidenceScore d))
        overall_confidence := acc.overall_confidence } := by
  induction l generalizing acc with
  | nil => simp [confidenceLoop]
  | cons d rest ih =>
      rw [confidenceLoop, ih]
      unfold confidenceStep
      by_cases h7 : evidenceScore d ≥ 7 / 10
      · simp [h7, List.filter_cons, List.append_assoc]
      · by_cases h4 : evidenceScore d ≥ 4 / 10
        · simp [h7, h4, List.filter_cons, List.append_assoc, not_le.mp h7]
        · simp [h7, h4, List.filter_cons, List.append_assoc, not_le.mp h7, not_le.mp h4]

/-- On canonical probability buckets (absent, 高, 中 or 低) the source's
substring-based scoring coincides with the claim's bucket-based formula. -/
theorem evidenceScore_eq_specScore (d : DiagnosisDict)
    (h : d.probability = none ∨ d.probability = some "高" ∨
      d.probability = some "中" ∨ d.probability = some "低") :
    evidenceScore d = specScore d := by
  have hg : pyHasChar (pyLower "高") '高' = true := by decide
  have hz1 : pyHasChar (pyLower "中") '高' = false := by decide
  have hz2 : pyHasChar (pyLower "中") '中' = true := by decide
  have hd1 : pyHasChar (pyLower "低") '高' = false := by decide
  have hd2 : pyHasChar (pyLower "低") '中' = false := by decide
  have hd3 : pyHasChar (pyLower "低") '低' = true := by decide
  have he1 : pyHasChar (pyLower "") '高' = false := by decide
  have he2 : pyHasChar (pyLower "") '中' = false := by decide
  have he3 : pyHasChar (pyLower "") '低' = false := by decide
  have ne1 : ("高" : String) ≠ "中" := by decide
  have ne2 : ("高" : String) ≠ "低" := by decide
  have ne3 : ("中" : String) ≠ "高" := by decide
  have ne4 : ("中" : String) ≠ "低" := by decide
  have ne5 : ("低" : String) ≠ "高" := by decide
  have ne6 : ("低" : String) ≠ "中" := by decide
  rcases h with h | h | h | h <;>
    simp [evidenceScore, specScore, h, hg, hz1, hz2, hd1, hd2, hd3, he1, he2, he3,
      ne1, ne2, ne3, ne4, ne5, ne6]

theorem filter_high_eq (revised : List DiagnosisDict)
    (hcanon : ∀ d ∈ revised, d.probability = none ∨ d.probability = some "高" ∨
      d.probability = some "中" ∨ d.probability = some "低") :
    revised.filter (fun d => evidenceScore d ≥ 7 / 10) =
      revised.filter (fun d => specScore d ≥ 7 / 10) := by
  refine List.filter_congr fun d hd => ?_
  rw [evidenceScore_eq_specScore d (hcanon d hd)]

theorem filter_medium_eq (revised : List DiagnosisDict)
    (hcanon : ∀ d ∈ revised, d.probability = none ∨ d.probability = some "高" ∨
      d.probability = some "中" ∨ d.probability = some "低") :
    revised.filter (fun d => ¬ evidenceScore d ≥ 7 / 10 ∧ evidenceScore d ≥ 4 / 10) =
      revised.filter (fun d => 4 / 10 ≤ specScore d ∧ specScore d < 7 / 10) := by
  refine List.filter_congr fun d hd => ?_
  rw [evidenceScore_eq_specScore d (hcanon d hd), decide_eq_decide]
  rw [not_le]
  exact and_comm

theorem filter_low_eq (revised : List DiagnosisDict)
    (hcanon : ∀ d ∈ revised, d.probability = none ∨ d.probability = some "高" ∨
      d.probability = some "中" ∨ d.probability = some "低") :
    revised.filter (fun d => ¬ evidenceScore d ≥ 7 / 10 ∧ ¬ evidenceScore d ≥ 4 / 10) =
      revised.filter (fun d => specScore d < 4 / 10) := by
  refine List.filter_congr fun d hd => ?_
  rw [evidenceScore_eq_specScore d (hcanon d hd), decide_eq_decide]
  rw [not_le, not_le]
  constructor
  · exact And.right
  · intro h
    exact ⟨lt_trans h (by norm_num), h⟩

/-- C1: for every revised diagnosis list whose probability fields are
canonical buckets (absent or 高/中/低), the Resolution Stage's confidence
analysis assigns each diagnosis the score 0.2 × evidence count + bonus
(0.6 high, 0.3 medium, 0.1 low, 0 otherwise), places a diagnosis in the
high bucket iff score ≥ 0.7, in the medium bucket iff 0.4 ≤ score < 0.7
and in the low bucket otherwise; the boundary examples score 0.6 (medium
bucket) and 1.2 (high bucket); the overall label is high iff the high
bucket is non-empty, else medium iff the medium bucket is non-empty, else
low. -/
theorem resolution_confidence_scoring (revised : List DiagnosisDict)
    (hcanon : ∀ d ∈ revised, d.probability = none ∨ d.probability = some "高" ∨
      d.probability = some "中" ∨ d.probability = some "低") :
    (analyze_diagnosis_confidence revised).evidence_strength_scores =
        revised.map (fun d => (diagnosisNameOf d, specScore d)) ∧
    (analyze_diagnosis_confidence revised).high_confidence_diagnoses =
        revised.filter (fun d => specScore d ≥ 7 / 10) ∧
    (analyze_diagnosis_confidence revised).medium_confidence_diagnoses =
        revised.filter (fun d => 4 / 10 ≤ specScore d ∧ specScore d < 7 / 10) ∧
    (analyze_diagnosis_confidence revised).low_confidence_diagnoses =
        revised.filter (fun d => specScore d < 4 / 10) ∧
    (analyze_diagnosis_confidence revised).overall_confidence =
        (if revised.filter (fun d => specScore d ≥ 7 / 10) ≠ [] then "high"
         else if revised.filter
             (fun d => 4 / 10 ≤ specScore d ∧ specScore d < 7 / 10) ≠ [] then "medium"
         else "low") ∧
    specScore exHighNoEvidence = 6 / 10 ∧
    (analyze_diagnosis_confidence [exHighNoEvidence]).medium_confidence_diagnoses =
        [exHighNoEvidence] ∧
    specScore exHighThreeEvidence = 12 / 10 ∧
    (analyze_diagnosis_confidence [exHighThreeEvidence]).high_confidence_diagnoses =
        [exHighThreeEvidence] := by
  have hmap : revised.map (fun d => (diagnosisNameOf d, evidenceScore d)) =
      revised.map (fun d => (diagnosisNameOf d, specScore d)) := by
    refine List.map_congr_left fun d hd => ?_
    rw [evidenceScore_eq_specScore d (hcanon d hd)]
  have hana : analyze_diagnosis_confidence revised =
      { high_confidence_diagnoses := revised.filter (fun d => specScore d ≥ 7 / 10)
        medium_confidence_diagnoses :=
          revised.filter (fun d => 4 / 10 ≤ specScore d ∧ specScore d < 7 / 10)
        low_confidence_diagnoses := revised.filter (fun d => specScore d < 4 / 10)
        evidence_strength_scores := revised.map (fun d => (diagnosisNameOf d, specScore d))
        overall_confidence :=
          if revised.filter (fun d => specScore d ≥ 7 / 10) ≠ [] then "high"
          else if revised.filter
              (fun d => 4 / 10 ≤ specScore d ∧ specScore d < 7 / 10) ≠ [] then "medium"
          else "low" } := by
    unfold analyze_diagnosis_confidence
    rw [confidenceLoop_spec]
    simp only [List.nil_append]
    rw [filter_high_eq revised hcanon, filter_medium_eq revised hcanon,
      filter_low_eq revised hcanon, hmap]
  have hex1 : specScore exHighNoEvidence = 6 / 10 := by
    norm_num [specScore, exHighNoEvidence]
  have hex1' : evidenceScore exHighNoEvidence = 6 / 10 := by
    rw [evidenceScore_eq_specScore _ (Or.inr (Or.inl rfl))]; exact hex1
  have hex2 : specScore exHighThreeEvidence = 12 / 10 := by
    norm_num [specScore, exHighThreeEvidence]
  have hex2' : evidenceScore exHighThreeEvidence = 12 / 10 := by
    rw [evidenceScore_eq_specScore _ (Or.inr (Or.inl rfl))]; exact hex2
  have hb1 : (analyze_diagnosis_confidence [exHighNoEvidence]).medium_confidence_diagnoses =
      [exHighNoEvidence] := by
    norm_num [analyze_diagnosis_confidence, confidenceLoop, confidenceStep, hex1']
  have hb2 : (analyze_diagnosis_confidence [exHighThreeEvidence]).high_confidence_diagnoses =
      [exHighThreeEvidence] := by
    norm_num [analyze_diagnosis_confidence, confidenceLoop, confidenceStep, hex2']
  refine ⟨?_, ?_, ?_, ?_, ?_, hex1, hb1, hex2, hb2⟩ <;> rw [hana]

/-- Witness for C1 at the concrete one-element revised list. -/
theorem resolution_confidence_scoring_witness :
    (∀ d ∈ [exHighNoEvidence], d.probability = none ∨ d.probability = some "高" ∨
      d.probability = some "中" ∨ d.probability = some "低") ∧
    (analyze_diagnosis_confidence [exHighNoEvidence]).medium_confidence_diagnoses =
      [exHighNoEvidence] :=
  ⟨by simp [exHighNoEvidence],
   (resolution_confidence_scoring [exHighNoEvidence]
      (by simp [exHighNoEvidence])).2.2.2.2.2.2.1⟩

/-- C5: for every confidence analysis, the selection embedded from
`DrClinicalReasoningAgent.process` takes the primary name from the first
entry of the high bucket when that bucket is non-empty and otherwise from
the first entry of the medium bucket (empty string when both are empty),
and the secondary names from the first two medium entries when the
primary came from the high bucket, resp. the second and third medium
entries when it came from the medium bucket. -/
theorem resolution_primary_secondary_selection (ca : ConfidenceAnalysis) :
    (ca.high_confidence_diagnoses ≠ [] →
      selectPrimarySecondary ca =
        ((ca.high_confidence_diagnoses.head?.map diagnosisNameOf).getD "",
         (ca.medium_confidence_diagnoses.take 2).map diagnosisNameOf)) ∧
    (ca.high_confidence_diagnoses = [] → ca.medium_confidence_diagnoses ≠ [] →
      selectPrimarySecondary ca =
        ((ca.medium_confidence_diagnoses.head?.map diagnosisNameOf).getD "",
         ((ca.medium_confidence_diagnoses.drop 1).take 2).map diagnosisNameOf)) ∧
    (ca.high_confidence_diagnoses = [] → ca.medium_confidence_diagnoses = [] →
      selectPrimarySecondary ca = ("", [])) := by
  obtain ⟨hs, ms, ls, es, oc⟩ := ca
  cases hs with
  | nil =>
      cases ms with
      | nil => simp [selectPrimarySecondary]
      | cons dm rest => simp [selectPrimarySecondary]
  | cons dh rest => simp [selectPrimarySecondary]

/-- Witness for C5 at a concrete confidence analysis whose high bucket is
empty and whose medium bucket has three entries. -/
theorem resolution_primary_secondary_selection_witness :
    ([] : List DiagnosisDict) = [] ∧
    selectPrimarySecondary
        ⟨[], [exHighNoEvidence, exHighThreeEvidence, exHighNoEvidence], [], [], "medium"⟩ =
      ("急性下壁心肌梗死", ["不稳定性心绞痛", "急性下壁心肌梗死"]) := by
  have h := (resolution_primary_secondary_selection
    ⟨[], [exHighNoEvidence, exHighThreeEvidence, exHighNoEvidence], [], [], "medium"⟩).2.1
    rfl (by simp)
  refine ⟨rfl, ?_⟩
  rw [h]
  simp [diagnosisNameOf, exHighNoEvidence, exHighThreeEvidence]

theorem qualityOverall_spec (q : QualityAnalysis) :
    qualityOverall q =
      { q with potential_issues := q.potential_issues
          ++ (if q.high_probability_count = 0 then [missingHighMsg] else [])
          ++ (if 2 < q.high_probability_count then [overdiagnosisMsg] else []) } := by
  by_cases h0 : q.high_probability_count = 0
  · have h2 : ¬ q.high_probability_count > 2 := by omega
    simp [qualityOverall, h0, h2]
  · by_cases h2 : q.high_probability_count > 2
    · simp [qualityOverall, h0, h2]
    · simp [qualityOverall, h0, h2]

theorem qualityLoop_spec (l : List DiagnosisDict) (acc : QualityAnalysis) :
    qualityLoop acc l =
      { total_diagnoses := acc.total_diagnoses
        high_probability_count := acc.high_probability_count + l.countP probMarkHigh
        medium_probability_count := acc.medium_probability_count +
          l.countP (fun d => !probMarkHigh d && probMarkMedium d)
        low_probability_count := acc.low_probability_count +
          l.countP (fun d => !probMarkHigh d && !probMarkMedium d && probMarkLow d)
        diagnoses_with_evidence := acc.diagnoses_with_evidence +
          l.countP (fun d => !(d.supporting_evidence.getD []).isEmpty)
        diagnoses_with_tests := acc.diagnoses_with_tests +
          l.countP (fun d => !(d.additional_tests_needed.getD []).isEmpty)
        potential_issues := acc.potential_issues ++
          (l.filter (fun d => (d.supporting_evidence.getD []).isEmpty)).map lackEvidenceMsg } := by
  induction l generalizing acc with
  | nil => simp [qualityLoop]
  | cons d rest ih =>
      rw [qualityLoop, ih]
      unfold qualityStep
      by_cases h1 : probMarkHigh d <;> by_cases h2 : probMarkMedium d <;>
        by_cases h3 : probMarkLow d <;>
        by_cases h4 : (d.supporting_evidence.getD []).isEmpty <;>
        by_cases h5 : (d.additional_tests_needed.getD []).isEmpty <;>
        simp [h1, h2, h3, h4, h5, List.countP_cons, List.filter_cons, List.append_assoc,
          Nat.add_assoc, Nat.add_comm, Nat.add_left_comm]

theorem probMark_canonical (d : DiagnosisDict)
    (h : d.probability = none ∨ d.probability = some "高" ∨
      d.probability = some "中" ∨ d.probability = some "低") :
    probMarkHigh d = decide (d.probability = some "高") ∧
    (!probMarkHigh d && probMarkMedium d) = decide (d.probability = some "中") ∧
    (!probMarkHigh d && !probMarkMedium d && probMarkLow d) =
      decide (d.probability = some "低") := by
  rcases h with h | h | h | h <;>
    simp [probMarkHigh, probMarkMedium, probMarkLow, h] <;> decide

theorem lackEvidenceMsg_ne_missingHighMsg (d : DiagnosisDict) :
    lackEvidenceMsg d ≠ missingHighMsg := by
  intro h
  have hd := congrArg (fun s => s.data.head?) h
  simp [lackEvidenceMsg, missingHighMsg] at hd

theorem lackEvidenceMsg_ne_overdiagnosisMsg (d : DiagnosisDict) :
    lackEvidenceMsg d ≠ overdiagnosisMsg := by
  intro h
  have hd := congrArg (fun s => s.data.head?) h
  simp [lackEvidenceMsg, overdiagnosisMsg] at hd

theorem missingHighMsg_ne_overdiagnosisMsg : missingHighMsg ≠ overdiagnosisMsg := by
  decide

/-- C3: for every candidate list with canonical probability buckets the
Challenge Stage's deterministic quality analysis tallies the bucket
counts, counts diagnoses with non-empty evidence and with non-empty
recommended-tests lists, emits one named concern per evidence-less
diagnosis, and contains the missing-high concern exactly when the high
count is zero and the overdiagnosis concern exactly when the high count
exceeds two. -/
theorem challenge_quality_analysis (cands : List DiagnosisDict)
    (hcanon : ∀ d ∈ cands, d.probability = none ∨ d.probability = some "高" ∨
      d.probability = some "中" ∨ d.probability = some "低") :
    (analyze_diagnosis_quality cands).total_diagnoses = cands.length ∧
    (analyze_diagnosis_quality cands).high_probability_count =
        cands.countP (fun d => d.probability = some "高") ∧
    (analyze_diagnosis_quality cands).medium_probability_count =
        cands.countP (fun d => d.probability = some "中") ∧
    (analyze_diagnosis_quality cands).low_probability_count =
        cands.countP (fun d => d.probability = some "低") ∧
    (analyze_diagnosis_quality cands).diagnoses_with_evidence =
        cands.countP (fun d => d.supporting_evidence.getD [] ≠ []) ∧
    (analyze_diagnosis_quality cands).diagnoses_with_tests =
        cands.countP (fun d => d.additional_tests_needed.getD [] ≠ []) ∧
    (analyze_diagnosis_quality cands).potential_issues =
        (cands.filter (fun d => d.supporting_evidence.getD [] = [])).map lackEvidenceMsg
          ++ (if cands.countP (fun d => d.probability = some "高") = 0
              then [missingHighMsg] else [])
          ++ (if 2 < cands.countP (fun d => d.probability = some "高")
              then [overdiagnosisMsg] else []) ∧
    (missingHighMsg ∈ (analyze_diagnosis_quality cands).potential_issues ↔
        cands.countP (fun d => d.probability = some "高") = 0) ∧
    (overdiagnosisMsg ∈ (analyze_diagnosis_quality cands).potential_issues ↔
        2 < cands.countP (fun d => d.probability = some "高")) := by
  have hhigh : cands.countP probMarkHigh =
      cands.countP (fun d => d.probability = some "高") :=
    List.countP_congr fun d hd => by rw [(probMark_canonical d (hcanon d hd)).1]
  have hmed : cands.countP (fun d => !probMarkHigh d && probMarkMedium d) =
      cands.countP (fun d => d.probability = some "中") :=
    List.countP_congr fun d hd => by rw [(probMark_canonical d (hcanon d hd)).2.1]
  have hlow : cands.countP (fun d => !probMarkHigh d && !probMarkMedium d && probMarkLow d) =
      cands.countP (fun d => d.probability = some "低") :=
    List.countP_congr fun d hd => by rw [(probMark_canonical d (hcanon d hd)).2.2]
  have hev : cands.countP (fun d => !(d.supporting_evidence.getD []).isEmpty) =
      cands.countP (fun d => d.supporting_evidence.getD [] ≠ []) := by
    refine List.countP_congr fun d _ => ?_
    simp [List.isEmpty_iff]
  have hte : cands.countP (fun d => !(d.additional_tests_needed.getD []).isEmpty) =
      cands.countP (fun d => d.additional_tests_needed.getD [] ≠ []) := by
    refine List.countP_congr fun d _ => ?_
    simp [List.isEmpty_iff]
  have hfil : cands.filter (fun d => (d.supporting_evidence.getD []).isEmpty) =
      cands.filter (fun d => d.supporting_evidence.getD [] = []) := by
    refine List.filter_congr fun d _ => ?_
    cases hcase : d.supporting_evidence.getD [] <;> simp [hcase]
  have hqa : analyze_diagnosis_quality cands =
      { total_diagnoses := cands.length
        high_probability_count := cands.countP (fun d => d.probability = some "高")
        medium_probability_count := cands.countP (fun d => d.probability = some "中")
        low_probability_count := cands.countP (fun d => d.probability = some "低")
        diagnoses_with_evidence := cands.countP (fun d => d.supporting_evidence.getD [] ≠ [])
        diagnoses_with_tests := cands.countP (fun d => d.additional_tests_needed.getD [] ≠ [])
        potential_issues :=
          (cands.filter (fun d => d.supporting_evidence.getD [] = [])).map lackEvidenceMsg
            ++ (if cands.countP (fun d => d.probability = some "高") = 0
                then [missingHighMsg] else [])
            ++ (if 2 < cands.countP (fun d => d.probability = some "高")
                then [overdiagnosisMsg] else []) } := by
    unfold analyze_diagnosis_quality
    rw [qualityLoop_spec, qualityOverall_spec]
    simp only [Nat.zero_add, List.nil_append, hhigh, hmed, hlow, hev, hte, hfil]
  refine ⟨?_, ?_, ?_, ?_, ?_, ?_, ?_, ?_, ?_⟩ <;> rw [hqa]
  · simp only [List.mem_append, List.mem_map]
    constructor
    · rintro ((⟨d, _, habs⟩ | hmem) | hmem)
      · exact absurd habs (lackEvidenceMsg_ne_missingHighMsg d)
      · by_cases h0 : cands.countP (fun d => d.probability = some "高") = 0
        · exact h0
        · simp [h0] at hmem
      · by_cases h2 : 2 < cands.countP (fun d => d.probability = some "高")
        · simp [h2] at hmem
          exact absurd hmem missingHighMsg_ne_overdiagnosisMsg
        · simp [h2] at hmem
    · intro h0
      exact Or.inl (Or.inr (by simp [h0]))
  · simp only [List.mem_append, List.mem_map]
    constructor
    · rintro ((⟨d, _, habs⟩ | hmem) | hmem)
      · exact absurd habs (lackEvidenceMsg_ne_overdiagnosisMsg d)
      · by_cases h0 : cands.countP (fun d => d.probability = some "高") = 0
        · simp [h0] at hmem
          exact absurd hmem missingHighMsg_ne_overdiagnosisMsg.symm
        · simp [h0] at hmem
      · by_cases h2 : 2 < cands.countP (fun d => d.probability = some "高")
        · exact h2
        · simp [h2] at hmem
    · intro h2
      exact Or.inr (by simp [h2])

theorem challengeGo_allFail (att : Nat → GenAttempt ChallengeDict) (mR : Nat)
    (hfail : ∀ i, challengeAttemptFails (att i) = true) :
    ∀ fuel rc calls sleeps exc, rc + fuel = mR →
      (challengeGo att mR rc fuel calls sleeps exc).calls = calls + fuel ∧
      (challengeGo att mR rc fuel calls sleeps exc).result.fallback_mode = some true ∧
      (challengeGo att mR rc fuel calls sleeps exc).result.error.isSome = true := by
  intro fuel
  induction fuel with
  | zero =>
      intro rc calls sleeps exc hsum
      simp [challengeGo, create_fallback_challenge_result]
  | succ n ih =>
      intro rc calls sleeps exc hsum
      have hf := hfail rc
      cases hat : att rc with
      | ok resp parsed =>
          rw [hat] at hf
          have hperr : parsed.error.isSome = true := hf
          by_cases hrc : rc = mR - 1
          · have hn : n = 0 := by omega
            subst hn
            subst hrc
            simp [challengeGo, hat, hperr, create_fallback_challenge_result]
          · have hrec := ih (rc + 1) (calls + 1) sleeps exc (by omega)
            have hstep : challengeGo att mR rc (n + 1) calls sleeps exc =
                challengeGo att mR (rc + 1) n (calls + 1) sleeps exc := by
              simp [challengeGo, hat, hperr, hrc]
            rw [hstep]
            exact ⟨by rw [hrec.1]; omega, hrec.2.1, hrec.2.2⟩
      | raised msg =>
          by_cases hto : isTimeoutMsg msg = true ∧ rc < mR - 1
          · have hrec := ih (rc + 1) (calls + 1) (sleeps ++ [2 ^ rc]) (exc + 1) (by omega)
            have hstep : challengeGo att mR rc (n + 1) calls sleeps exc =
                challengeGo att mR (rc + 1) n (calls + 1) (sleeps ++ [2 ^ rc]) (exc + 1) := by
              simp [challengeGo, hat, hto]
            rw [hstep]
            exact ⟨by rw [hrec.1]; omega, hrec.2.1, hrec.2.2⟩
          · by_cases hrc : rc = mR - 1
            · have hn : n = 0 := by omega
              subst hn
              subst hrc
              simp [challengeGo, hat, hto, create_fallback_challenge_result]
            · have hrec := ih (rc + 1) (calls + 1) sleeps (exc + 1) (by omega)
              have hstep : challengeGo att mR rc (n + 1) calls sleeps exc =
                  challengeGo att mR (rc + 1) n (calls + 1) sleeps (exc + 1) := by
                simp [challengeGo, hat, hto, hrc]
              rw [hstep]
              exact ⟨by rw [hrec.1]; omega, hrec.2.1, hrec.2.2⟩

theorem challengeGo_no_raise (att : Nat → GenAttempt ChallengeDict) (mR : Nat)
    (hok : ∀ i, ∃ resp parsed, att i = .ok resp parsed) :
    ∀ fuel rc calls sleeps exc,
      (challengeGo att mR rc fuel calls sleeps exc).sleeps = sleeps ∧
      (challengeGo att mR rc fuel calls sleeps exc).excBranches = exc := by
  intro fuel
  induction fuel with
  | zero =>
      intro rc calls sleeps exc
      simp [challengeGo]
  | succ n ih =>
      intro rc calls sleeps exc
      obtain ⟨resp, parsed, hat⟩ := hok rc
      by_cases hperr : parsed.error.isSome = true
      · by_cases hrc : rc = mR - 1
        · subst hrc
          simp [challengeGo, hat, hperr]
        · have hrec := ih (rc + 1) (calls + 1) sleeps exc
          have hstep : challengeGo att mR rc (n + 1) calls sleeps exc =
              challengeGo att mR (rc + 1) n (calls + 1) sleeps exc := by
            simp [challengeGo, hat, hperr, hrc]
          rw [hstep]
          exact hrec
      · have hperr' : parsed.error.isSome = false := by
          simpa using hperr
        simp [challengeGo, hat, hperr']

/-- C2 counterexample: the Hypothesis Stage does not run the retry policy.
With a generator that always raises a timeout, the stage makes exactly one
attempt, performs no backoff sleep, and its fallback artifact carries the
error message but no `fallback_mode` flag — contradicting the claim that
both stages retry timeouts with `2^attempt` backoff and annotate the
final fallback with `fallback_mode`. -/
theorem hypothesis_stage_no_retry_counterexample :
    (generate_diagnosis_hypotheses hypAlwaysTimeout).calls = 1 ∧
    (generate_diagnosis_hypotheses hypAlwaysTimeout).sleeps = [] ∧
    (generate_diagnosis_hypotheses hypAlwaysTimeout).result.error = some "Request timed out" ∧
    ¬ (generate_diagnosis_hypotheses hypAlwaysTimeout).result.fallback_mode = some true := by
  refine ⟨rfl, rfl, rfl, ?_⟩
  simp [generate_diagnosis_hypotheses, hypAlwaysTimeout]

/-- C2 amended: the Challenge Stage runs the retry policy — with an
always-failing generator it makes exactly 3 calls and returns the
`fallback_mode`-flagged fallback; a failing first parse retries
immediately with no sleep; a timeout exception on the first attempt
sleeps `2^0` before retrying — while the Hypothesis Stage always makes
exactly one call, never sleeps, and on failure returns its fallback
without a `fallback_mode` flag. -/
theorem stage_retry_policy_amended (att : Nat → GenAttempt ChallengeDict)
    (hatt : Nat → GenAttempt HypoDict)
    (hfail : ∀ i, challengeAttemptFails (att i) = true) :
    (challenge_diagnosis att).calls = 3 ∧
    (challenge_diagnosis att).result.fallback_mode = some true ∧
    (challenge_diagnosis att).result.error.isSome = true ∧
    (∀ resp parsed, att 0 = .ok resp parsed →
      challenge_diagnosis att = challengeGo att 3 1 2 1 [] 0) ∧
    (∀ msg, att 0 = .raised msg → isTimeoutMsg msg = true →
      challenge_diagnosis att = challengeGo att 3 1 2 1 [2 ^ 0] 1) ∧
    (generate_diagnosis_hypotheses hatt).calls = 1 ∧
    (generate_diagnosis_hypotheses hatt).sleeps = [] ∧
    (hypoAttemptFails (hatt 0) = true →
      (generate_diagnosis_hypotheses hatt).result.error.isSome = true ∧
      (generate_diagnosis_hypotheses hatt).result.fallback_mode = none) := by
  have hall := challengeGo_allFail att 3 hfail 3 0 0 [] 0 rfl
  refine ⟨hall.1, hall.2.1, hall.2.2, ?_, ?_, ?_, ?_, ?_⟩
  · intro resp parsed hat
    have hf := hfail 0
    rw [hat] at hf
    have hperr : parsed.error.isSome = true := hf
    simp [challenge_diagnosis, challengeGo, hat, hperr]
  · intro msg hat hto
    simp [challenge_diagnosis, challengeGo, hat, hto]
  · cases h0 : hatt 0 with
    | ok resp parsed =>
        by_cases hperr : parsed.error.isSome = true
        · simp [generate_diagnosis_hypotheses, h0, hperr]
        · simp [generate_diagnosis_hypotheses, h0, hperr]
    | raised msg => simp [generate_diagnosis_hypotheses, h0]
  · cases h0 : hatt 0 with
    | ok resp parsed =>
        by_cases hperr : parsed.error.isSome = true
        · simp [generate_diagnosis_hypotheses, h0, hperr]
        · simp [generate_diagnosis_hypotheses, h0, hperr]
    | raised msg => simp [generate_diagnosis_hypotheses, h0]
  · intro hfl
    cases h0 : hatt 0 with
    | ok resp parsed =>
        rw [h0] at hfl
        have hperr : parsed.error.isSome = true := hfl
        simp [generate_diagnosis_hypotheses, h0, hperr]
    | raised msg => simp [generate_diagnosis_hypotheses, h0]

/-- Witness for the amended C2 at the concrete always-timeout oracles. -/
theorem stage_retry_policy_amended_witness :
    (∀ i, challengeAttemptFails (chalAlwaysTimeout i) = true) ∧
    (challenge_diagnosis chalAlwaysTimeout).calls = 3 ∧
    (challenge_diagnosis chalAlwaysTimeout).result.fallback_mode = some true ∧
    (generate_diagnosis_hypotheses hypAlwaysTimeout).calls = 1 := by
  have h := stage_retry_policy_amended chalAlwaysTimeout hypAlwaysTimeout (fun _ => rfl)
  exact ⟨fun _ => rfl, h.1, h.2.1, h.2.2.2.2.2.1⟩

/-- C10: `generate_response` is a total function into strings — a raised
exception, an error result, and a choices-less result all collapse to the
per-agent apology string, and only a well-shaped result yields its first
choice — and consequently the Challenge Stage's retry loop, fed through
`generate_response`, never performs a backoff sleep and never visits its
except branch, whatever the client outcomes and the parse function do. -/
theorem generate_response_never_raises (agent_name : String) :
    (∀ msg, generate_response agent_name (.raised msg) = apologyMsg agent_name) ∧
    (∀ err choices, err.isSome = true →
      generate_response agent_name (.result err choices) = apologyMsg agent_name) ∧
    generate_response agent_name (.result none []) = apologyMsg agent_name ∧
    (∀ c cs, generate_response agent_name (.result none (c :: cs)) = c) ∧
    (∀ (os : Nat → ChatOutcome) (parse : String → ChallengeDict),
      (challenge_diagnosis
        (fun i => attemptViaGenerateResponse agent_name parse (os i))).sleeps = [] ∧
      (challenge_diagnosis
        (fun i => attemptViaGenerateResponse agent_name parse (os i))).excBranches = 0) := by
  refine ⟨fun msg => rfl, ?_, rfl, fun c cs => rfl, ?_⟩
  · intro err choices herr
    simp [generate_response, herr]
  · intro os parse
    exact challengeGo_no_raise _ 3
      (fun i => ⟨generate_response agent_name (os i),
        parse (generate_response agent_name (os i)), rfl⟩) 3 0 0 [] 0

/-- Witness for C10 at a concrete agent name, an error result, and the
always-timeout client oracle with the parse-failure parse function. -/
theorem generate_response_never_raises_witness :
    generate_response "Dr.Challenger" (.result (some "boom") ["text"]) =
      apologyMsg "Dr.Challenger" ∧
    (challenge_diagnosis
      (fun i => attemptViaGenerateResponse "Dr.Challenger" (fun _ => parseFailDict)
        (clientAlwaysTimeout i))).sleeps = [] ∧
    (challenge_diagnosis
      (fun i => attemptViaGenerateResponse "Dr.Challenger" (fun _ => parseFailDict)
        (clientAlwaysTimeout i))).excBranches = 0 := by
  have h := generate_response_never_raises "Dr.Challenger"
  have h5 := h.2.2.2.2 clientAlwaysTimeout (fun _ => parseFailDict)
  exact ⟨h.2.1 (some "boom") ["text"] rfl, h5.1, h5.2⟩

/-- C4: the aggregated report's consensus level is the pure function
`assess_consensus_level` of the quality-concern count and the overall
confidence label: high iff zero concerns and high confidence; medium iff
not high and concerns ≤ 2 with high or medium confidence; low otherwise;
with the table instances (0, high) → high, (2, medium) → medium,
(3, low) → low. -/
theorem orchestrator_consensus_level (qc : Nat) (conf : String) :
    (assess_consensus_level qc conf = "high" ↔ qc = 0 ∧ conf = "high") ∧
    (assess_consensus_level qc conf = "medium" ↔
      ¬(qc = 0 ∧ conf = "high") ∧ (qc ≤ 2 ∧ (conf = "high" ∨ conf = "medium"))) ∧
    (assess_consensus_level qc conf = "low" ↔
      ¬(qc = 0 ∧ conf = "high") ∧ ¬(qc ≤ 2 ∧ (conf = "high" ∨ conf = "medium"))) ∧
    (∀ sid h c r steps, (generate_final_report sid h c r steps).consensus_level =
      assess_consensus_level c.challenge_result.quality_concerns.length
        r.confidence_analysis.overall_confidence) ∧
    assess_consensus_level 0 "high" = "high" ∧
    assess_consensus_level 2 "medium" = "medium" ∧
    assess_consensus_level 3 "low" = "low" := by
  have hhm : ("high" : String) ≠ "medium" := by decide
  have hhl : ("high" : String) ≠ "low" := by decide
  have hml : ("medium" : String) ≠ "low" := by decide
  refine ⟨?_, ?_, ?_, fun sid h c r steps => rfl, by rfl, by rfl, by rfl⟩ <;>
    unfold assess_consensus_level <;>
    split_ifs with h1 h2 <;>
    simp_all [hhm, hhl, hml, Ne.symm hhm, Ne.symm hhl, Ne.symm hml]

/-- C6: both stage validators are total and fill every required field:
the hypothesis validator defaults the clinical reasoning and key
findings, and every dict entry of the candidate list is normalized to the
four-field record with the documented defaults (sentinel name 未知诊断,
probability 中, empty lists) — and nothing else enters the normalized
list; the challenge validator likewise defaults its five required fields
and normalizes its revised list the same way. -/
theorem validators_fill_defaults (d : HypoDict) (c : ChallengeDict) :
    (validate_diagnosis_hypotheses d).clinical_reasoning =
        d.clinical_reasoning.getD "未提供临床推理" ∧
    (validate_diagnosis_hypotheses d).key_findings = d.key_findings.getD [] ∧
    (∀ dd, DiagEntry.dict dd ∈ d.candidate_diagnoses.getD [] →
      ({ diagnosis_name := dd.diagnosis_name.getD "未知诊断"
         supporting_evidence := dd.supporting_evidence.getD []
         probability := dd.probability.getD "中"
         additional_tests_needed := dd.additional_tests_needed.getD [] } : ValidatedDiagnosis)
        ∈ (validate_diagnosis_hypotheses d).candidate_diagnoses) ∧
    (∀ v ∈ (validate_diagnosis_hypotheses d).candidate_diagnoses, ∃ dd,
      DiagEntry.dict dd ∈ d.candidate_diagnoses.getD [] ∧
      v.diagnosis_name = dd.diagnosis_name.getD "未知诊断" ∧
      v.supporting_evidence = dd.supporting_evidence.getD [] ∧
      v.probability = dd.probability.getD "中" ∧
      v.additional_tests_needed = dd.additional_tests_needed.getD []) ∧
    (validate_challenge_result c).diagnosis_review = c.diagnosis_review.getD [] ∧
    (validate_challenge_result c).additional_diagnoses = c.additional_diagnoses.getD [] ∧
    (validate_challenge_result c).quality_concerns = c.quality_concerns.getD [] ∧
    (validate_challenge_result c).recommendations = c.recommendations.getD [] ∧
    (∀ dd, DiagEntry.dict dd ∈ c.revised_diagnosis_list.getD [] →
      ({ diagnosis_name := dd.diagnosis_name.getD "未知诊断"
         supporting_evidence := dd.supporting_evidence.getD []
         probability := dd.probability.getD "中"
         additional_tests_needed := dd.additional_tests_needed.getD [] } : ValidatedDiagnosis)
        ∈ (validate_challenge_result c).revised_diagnosis_list) ∧
    (∀ v ∈ (validate_challenge_result c).revised_diagnosis_list, ∃ dd,
      DiagEntry.dict dd ∈ c.revised_diagnosis_list.getD [] ∧
      v.diagnosis_name = dd.diagnosis_name.getD "未知诊断" ∧
      v.supporting_evidence = dd.supporting_evidence.getD [] ∧
      v.probability = dd.probability.getD "中" ∧
      v.additional_tests_needed = dd.additional_tests_needed.getD []) := by
  refine ⟨rfl, rfl, ?_, ?_, rfl, rfl, rfl, rfl, ?_, ?_⟩
  · intro dd hmem
    exact List.mem_filterMap.mpr ⟨DiagEntry.dict dd, hmem, rfl⟩
  · intro v hv
    obtain ⟨e, he, heq⟩ := List.mem_filterMap.mp hv
    cases e with
    | dict dd =>
        refine ⟨dd, he, ?_, ?_, ?_, ?_⟩ <;>
          simp [validateDiagnosisEntry] at heq <;> rw [← heq]
    | nonDict => simp [validateDiagnosisEntry] at heq
  · intro dd hmem
    exact List.mem_filterMap.mpr ⟨DiagEntry.dict dd, hmem, rfl⟩
  · intro v hv
    obtain ⟨e, he, heq⟩ := List.mem_filterMap.mp hv
    cases e with
    | dict dd =>
        refine ⟨dd, he, ?_, ?_, ?_, ?_⟩ <;>
          simp [validateDiagnosisEntry] at heq <;> rw [← heq]
    | nonDict => simp [validateDiagnosisEntry] at heq

/-- Witness for C6 at the concrete partial dictionaries. -/
theorem validators_fill_defaults_witness :
    (validate_diagnosis_hypotheses hypoPartialDict).clinical_reasoning = "未提供临床推理" ∧
    (⟨"未知诊断", [], "中", []⟩ : ValidatedDiagnosis) ∈
      (validate_diagnosis_hypotheses hypoPartialDict).candidate_diagnoses ∧
    (⟨"未知诊断", [], "中", []⟩ : ValidatedDiagnosis) ∈
      (validate_challenge_result chalPartialDict).revised_diagnosis_list := by
  have h := validators_fill_defaults hypoPartialDict chalPartialDict
  refine ⟨h.1, ?_, ?_⟩
  · exact h.2.2.1 ⟨none, none, none, none⟩ (by simp [hypoPartialDict])
  · exact h.2.2.2.2.2.2.2.2.1 ⟨none, none, none, none⟩ (by simp [chalPartialDict])

/-- C9: report export accepts exactly the `json` and `text` formats,
returning the rendered string, and rejects any other format with the
unsupported-format error — never a silent fallback. -/
theorem export_report_format_dispatch (json_dump text_format : WorkflowReport → String)
    (report : WorkflowReport) (format_type : String) :
    (format_type = "json" →
      export_diagnosis_report json_dump text_format report format_type =
        .ok (json_dump report)) ∧
    (format_type = "text" →
      export_diagnosis_report json_dump text_format report format_type =
        .ok (text_format report)) ∧
    (format_type ≠ "json" → format_type ≠ "text" →
      export_diagnosis_report json_dump text_format report format_type =
        .error ("不支持的导出格式: " ++ format_type)) := by
  refine ⟨?_, ?_, ?_⟩
  · intro h
    simp [export_diagnosis_report, h]
  · intro h
    have hne : format_type ≠ "json" := by
      rw [h]; decide
    simp [export_diagnosis_report, h, hne]
  · intro h1 h2
    simp [export_diagnosis_report, h1, h2]

/-- Witness for C9 at the unsupported format `xml` and at both supported
formats, with concrete renderers. -/
theorem export_report_format_dispatch_witness :
    export_diagnosis_report (fun _ => "json-render") (fun _ => "text-render")
      (.failure ⟨"s", "failed", "m", 0⟩) "xml" = .error "不支持的导出格式: xml" ∧
    export_diagnosis_report (fun _ => "json-render") (fun _ => "text-render")
      (.failure ⟨"s", "failed", "m", 0⟩) "json" = .ok "json-render" := by
  have h := export_report_format_dispatch (fun _ => "json-render") (fun _ => "text-render")
    (.failure ⟨"s", "failed", "m", 0⟩) "xml"
  have h2 := export_report_format_dispatch (fun _ => "json-render") (fun _ => "text-render")
    (.failure ⟨"s", "failed", "m", 0⟩) "json"
  exact ⟨h.2.2 (by decide) (by decide), h2.1 rfl⟩

/-- C7: the workflow is a total function into reports — each stage's
`process` catches every exception, and the orchestrator's own try/except
turns any non-success stage status into a structured error report carrying
the failing stage's error message and the recorded step count, aborting
the remaining stages (the result does not depend on the later stages'
outputs); on full success it returns the aggregated final report. -/
theorem orchestrator_error_handling (sid : String) (h : HypothesisOutput)
    (c : ChallengerOutput) (r : ReasoningOutput) (st : OrchestratorState) :
    (h.processing_status ≠ "success" →
      (execute_diagnosis_workflow sid h c r st).1 =
        .failure ⟨sid, "failed", "Dr.Hypothesis处理失败: " ++ optErrStr h.error, 1⟩ ∧
      ∀ c' r', execute_diagnosis_workflow sid h c' r' st =
        execute_diagnosis_workflow sid h c r st) ∧
    (h.processing_status = "success" → c.processing_status ≠ "success" →
      (execute_diagnosis_workflow sid h c r st).1 =
        .failure ⟨sid, "failed", "Dr.Challenger处理失败: " ++ optErrStr c.error, 2⟩ ∧
      ∀ r', execute_diagnosis_workflow sid h c r' st =
        execute_diagnosis_workflow sid h c r st) ∧
    (h.processing_status = "success" → c.processing_status = "success" →
      r.processing_status ≠ "success" →
      (execute_diagnosis_workflow sid h c r st).1 =
        .failure ⟨sid, "failed", "Dr.Clinical-Reasoning处理失败: " ++ optErrStr r.error, 3⟩) ∧
    (h.processing_status = "success" → c.processing_status = "success" →
      r.processing_status = "success" →
      (execute_diagnosis_workflow sid h c r st).1 =
        .success (generate_final_report sid h c r
          [⟨"hypothesis", h.agent_name, h.processing_status⟩,
           ⟨"challenger", c.agent_name, c.processing_status⟩,
           ⟨"clinical_reasoning", r.agent_name, r.processing_status⟩])) := by
  refine ⟨?_, ?_, ?_, ?_⟩
  · intro h1
    constructor
    · simp [execute_diagnosis_workflow, record_step, generate_error_report, h1]
    · intro c' r'
      simp [execute_diagnosis_workflow, record_step, generate_error_report, h1]
  · intro h1 h2
    constructor
    · simp [execute_diagnosis_workflow, record_step, generate_error_report, h1, h2]
    · intro r'
      simp [execute_diagnosis_workflow, record_step, generate_error_report, h1, h2]
  · intro h1 h2 h3
    simp [execute_diagnosis_workflow, record_step, generate_error_report, h1, h2, h3]
  · intro h1 h2 h3
    simp [execute_diagnosis_workflow, record_step, generate_final_report, h1, h2, h3]

/-- Witness for C7 at a concrete failing hypothesis stage. -/
theorem orchestrator_error_handling_witness :
    (execute_diagnosis_workflow "session_1" failedHyp okChal okReas ⟨none, []⟩).1 =
      .failure ⟨"session_1", "failed", "Dr.Hypothesis处理失败: 缺少患者信息", 1⟩ :=
  ((orchestrator_error_handling "session_1" failedHyp okChal okReas ⟨none, []⟩).1
    (by simp [failedHyp])).1

/-- C8 counterexample: a workflow that reaches the terminal `failed` state
leaves the session history untouched — the terminal SessionRecord is not
appended, contradicting the claim that every terminal workflow appends
its session to the history list. -/
theorem session_history_counterexample :
    ((execute_diagnosis_workflow "session_1" failedHyp okChal okReas
        ⟨none, []⟩).2.current_session.map Session.status = some "failed") ∧
    ((execute_diagnosis_workflow "session_1" failedHyp okChal okReas
        ⟨none, []⟩).2.session_history = []) := by
  constructor
  · simp [execute_diagnosis_workflow, record_step, failedHyp]
  · simp [execute_diagnosis_workflow, record_step, failedHyp]

/-- C8 amended: only a workflow that completes successfully appends its
terminal SessionRecord (status `completed`, all three step records, the
final report) to the session history; a failed workflow marks the current
session `failed` but leaves the history unchanged. -/
theorem session_history_append_amended (sid : String) (h : HypothesisOutput)
    (c : ChallengerOutput) (r : ReasoningOutput) (st : OrchestratorState) :
    (h.processing_status = "success" → c.processing_status = "success" →
      r.processing_status = "success" →
      (execute_diagnosis_workflow sid h c r st).2.session_history =
        st.session_history ++
          [{ session_id := sid, status := "completed",
             steps := [⟨"hypothesis", h.agent_name, h.processing_status⟩,
                       ⟨"challenger", c.agent_name, c.processing_status⟩,
                       ⟨"clinical_reasoning", r.agent_name, r.processing_status⟩],
             error := none,
             results := some (generate_final_report sid h c r
               [⟨"hypothesis", h.agent_name, h.processing_status⟩,
                ⟨"challenger", c.agent_name, c.processing_status⟩,
                ⟨"clinical_reasoning", r.agent_name, r.processing_status⟩]) }]) ∧
    (¬(h.processing_status = "success" ∧ c.processing_status = "success" ∧
        r.processing_status = "success") →
      (execute_diagnosis_workflow sid h c r st).2.session_history = st.session_history ∧
      (execute_diagnosis_workflow sid h c r st).2.current_session.map Session.status =
        some "failed") := by
  constructor
  · intro h1 h2 h3
    simp [execute_diagnosis_workflow, record_step, h1, h2, h3]
  · intro hna
    by_cases h1 : h.processing_status = "success"
    · by_cases h2 : c.processing_status = "success"
      · have h3 : r.processing_status ≠ "success" := by
          intro h3
          exact hna ⟨h1, h2, h3⟩
        simp [execute_diagnosis_workflow, record_step, h1, h2, h3]
      · simp [execute_diagnosis_workflow, record_step, h1, h2]
    · simp [execute_diagnosis_workflow, record_step, h1]

/-- Witness for the amended C8 at a concrete fully successful run. -/
theorem session_history_append_amended_witness :
    (execute_diagnosis_workflow "session_1" okHyp okChal okReas
        ⟨none, []⟩).2.session_history =
      [{ session_id := "session_1", status := "completed",
         steps := [⟨"hypothesis", "Dr.Hypothesis", "success"⟩,
                   ⟨"challenger", "Dr.Challenger", "success"⟩,
                   ⟨"clinical_reasoning", "Dr.Clinical-Reasoning", "success"⟩],
         error := none,
         results := some (generate_final_report "session_1" okHyp okChal okReas
           [⟨"hypothesis", "Dr.Hypothesis", "success"⟩,
            ⟨"challenger", "Dr.Challenger", "success"⟩,
            ⟨"clinical_reasoning", "Dr.Clinical-Reasoning", "success"⟩]) }] := by
  have hw := (session_history_append_amended "session_1" okHyp okChal okReas ⟨none, []⟩).1
    rfl rfl rfl
  simpa [okHyp, okChal, okReas] using hw

/-- Witness for C3 at the concrete three-high-probability candidate
list. -/
theorem challenge_quality_analysis_witness :
    (∀ d ∈ threeHighList, d.probability = none ∨ d.probability = some "高" ∨
      d.probability = some "中" ∨ d.probability = some "低") ∧
    overdiagnosisMsg ∈ (analyze_diagnosis_quality threeHighList).potential_issues := by
  have hcanon : ∀ d ∈ threeHighList, d.probability = none ∨ d.probability = some "高" ∨
      d.probability = some "中" ∨ d.probability = some "低" := by
    simp [threeHighList, exHighNoEvidence, exHighThreeEvidence]
  refine ⟨hcanon, ?_⟩
  exact (challenge_quality_analysis threeHighList hcanon).2.2.2.2.2.2.2.2.mpr
    (by simp [threeHighList, exHighNoEvidence, exHighThreeEvidence])

end MedAgents
